import Mathlib

/-!
Verification development for the VoCoType fcitx5 addon (C++ sources
`src/fcitx5/addon/ipc_client.cpp` and `src/fcitx5/addon/vocotype.cpp`).

The development shallowly embeds the IPC response decoding
(`IPCClient::processKey`, `IPCClient::ping`), the recorder stop routine
(`stopRecorderProcess`), the asynchronous stop/transcribe flow
(`VoCoTypeAddon::stopRecording`'s worker thread and delivery callback),
the key-event dispatch (`VoCoTypeAddon::keyEvent`,
`isIBusSwitchHotkey`, the modifier-mask construction) and the candidate
UI update (`VoCoTypeAddon::updateUI`).

Modelling conventions:
* JSON values are the inductive `Json`; numbers are modelled as `Int`
  (no response field consumed by the addon is fractional).
* The socket round trip of `IPCClient::sendRequest` together with
  `nlohmann::json::parse` is the oracle input `IpcOutcome`:
  `transportError` stands for any exception thrown by `sendRequest`
  (connect / send / receive failure), `parseError` for a parse
  exception, `response j` for a successfully parsed payload.
* C++ exceptions thrown during field extraction are `ExtractErr.thrown`;
  the out-of-contract dereference performed by nlohmann's const
  `operator[]` on a missing key (a failed assertion / undefined
  behaviour, not a catchable exception) is `ExtractErr.ub`, and a
  function whose C++ counterpart would reach it returns `none`.
-/

/-- A JSON value as handled by nlohmann::json in the addon. Numbers are
modelled as integers. -/
inductive Json where
  | null : Json
  | bool (b : Bool) : Json
  | num (n : Int) : Json
  | str (s : String) : Json
  | arr (elems : List Json) : Json
  | obj (fields : List (String × Json)) : Json

/-- First-match lookup in an object's field list (nlohmann objects obtained
from `json::parse` keep the first occurrence of a duplicated key). -/
def lookupField : List (String × Json) → String → Option Json
  | [], _ => none
  | (k, v) :: rest, key => if k = key then some v else lookupField rest key

/-- The outcome of one `sendRequest` + `json::parse` round trip, the
oracle boundary of the embedding. -/
inductive IpcOutcome where
  | transportError : IpcOutcome
  | parseError : IpcOutcome
  | response (j : Json) : IpcOutcome

/-- An error raised during field extraction: `thrown` is a C++ exception
(caught by the surrounding try/catch), `ub` is the undefined behaviour /
failed assertion of nlohmann's const `operator[]` on a missing key. -/
inductive ExtractErr where
  | thrown : ExtractErr
  | ub : ExtractErr
deriving DecidableEq

def Json.getObj? : Json → Option (List (String × Json))
  | .obj fs => some fs
  | _ => none

/-- Conversion of a json value to `std::string` (nlohmann get:
throws type_error 302 unless the value is a string). -/
def Json.asString : Json → Except ExtractErr String
  | .str s => .ok s
  | _ => .error .thrown

/-- Conversion of a json value to `bool` (throws unless boolean). -/
def Json.asBool : Json → Except ExtractErr Bool
  | .bool b => .ok b
  | _ => .error .thrown

/-- Conversion of a json value to `int` (nlohmann get_arithmetic_value:
throws unless the value is a number). -/
def Json.asInt : Json → Except ExtractErr Int
  | .num n => .ok n
  | _ => .error .thrown

/-- nlohmann `contains(key)`: false on every non-object. -/
def jcontains (j : Json) (key : String) : Bool :=
  match j.getObj? with
  | some fs => (lookupField fs key).isSome
  | none => false

/-- nlohmann `value(key, default)` with the conversion `conv`: throws
type_error 306 on a non-object, returns the default when the key is
absent, converts (possibly throwing) when it is present. -/
def jvalue {α : Type} (j : Json) (key : String) (dflt : α)
    (conv : Json → Except ExtractErr α) : Except ExtractErr α :=
  match j.getObj? with
  | none => .error .thrown
  | some fs =>
    match lookupField fs key with
    | none => .ok dflt
    | some v => conv v

/-- Non-const `operator[](key)`: on an object, the stored value or an
inserted null; on null, the value first becomes an object and the result
is again null; anything else throws type_error 305. -/
def subscrMut (j : Json) (key : String) : Except ExtractErr Json :=
  match j with
  | .obj fs => .ok ((lookupField fs key).getD Json.null)
  | .null => .ok Json.null
  | _ => .error .thrown

/-- Const `operator[](key)`: on an object the key must be present (a
missing key fails an assertion — undefined behaviour in release builds);
on a non-object it throws type_error 305. -/
def subscrConst (j : Json) (key : String) : Except ExtractErr Json :=
  match j with
  | .obj fs =>
    match lookupField fs key with
    | some v => .ok v
    | none => .error .ub
  | _ => .error .thrown

/-- Range-for over a json value: elements of an array, values of an
object, nothing for null, the value itself once for a primitive. -/
def jsonIterate : Json → List Json
  | .arr elems => elems
  | .obj fs => fs.map (fun p => p.2)
  | .null => []
  | j => [j]

/-- The `RimeUIState` struct of ipc_client.h with its member
initialisers. -/
structure RimeUIState where
  handled : Bool := false
  commit_text : String := ""
  preedit_text : String := ""
  cursor_pos : Int := 0
  candidates : List (String × String) := []
  highlighted_index : Int := 0
  page_size : Int := 5
deriving DecidableEq

/-- The `TranscribeResult` struct of ipc_client.h. -/
structure TranscribeResult where
  success : Bool := false
  text : String := ""
  error : String := ""
deriving DecidableEq

/-- Sequencing of the assignment statements in processKey's try block: a
raised extraction error aborts the rest but keeps the state built so
far (C++ exception semantics). -/
def andThen (x : RimeUIState × Option ExtractErr)
    (f : RimeUIState → RimeUIState × Option ExtractErr) :
    RimeUIState × Option ExtractErr :=
  match x with
  | (s, some e) => (s, some e)
  | (s, none) => f s

/-- `state.handled = response.value("handled", false);` -/
def stepHandled (j : Json) (s : RimeUIState) : RimeUIState × Option ExtractErr :=
  match jvalue j "handled" false Json.asBool with
  | .error e => (s, some e)
  | .ok b => ({ s with handled := b }, none)

/-- `if (response.contains("commit")) state.commit_text = response["commit"];` -/
def stepCommit (j : Json) (s : RimeUIState) : RimeUIState × Option ExtractErr :=
  if jcontains j "commit" then
    match subscrMut j "commit" with
    | .error e => (s, some e)
    | .ok v =>
      match v.asString with
      | .error e => (s, some e)
      | .ok t => ({ s with commit_text := t }, none)
  else (s, none)

/-- The preedit block of processKey:
`state.preedit_text = response["preedit"]["text"];` then
`state.cursor_pos = response["preedit"]["cursor_pos"];`, guarded by
`response.contains("preedit")`. -/
def stepPreedit (j : Json) (s : RimeUIState) : RimeUIState × Option ExtractErr :=
  if jcontains j "preedit" then
    match subscrMut j "preedit" with
    | .error e => (s, some e)
    | .ok pe =>
      match subscrMut pe "text" with
      | .error e => (s, some e)
      | .ok tv =>
        match tv.asString with
        | .error e => (s, some e)
        | .ok t =>
          let s := { s with preedit_text := t }
          match subscrMut j "preedit" with
          | .error e => (s, some e)
          | .ok pe2 =>
            match subscrMut pe2 "cursor_pos" with
            | .error e => (s, some e)
            | .ok cv =>
              match cv.asInt with
              | .error e => (s, some e)
              | .ok cp => ({ s with cursor_pos := cp }, none)
  else (s, none)

/-- The loop body of the candidates block: per element,
`std::string text = candidate["text"];` (const subscript),
`std::string comment = candidate["comment"];`, then push_back.
Extraction already pushed stays pushed when a later element fails. -/
def readCandidates : List Json → List (String × String) × Option ExtractErr
  | [] => ([], none)
  | c :: rest =>
    match subscrConst c "text" with
    | .error e => ([], some e)
    | .ok tv =>
      match tv.asString with
      | .error e => ([], some e)
      | .ok t =>
        match subscrConst c "comment" with
        | .error e => ([], some e)
        | .ok cv =>
          match cv.asString with
          | .error e => ([], some e)
          | .ok cm =>
            let (xs, err) := readCandidates rest
            ((t, cm) :: xs, err)

/-- The candidates block of processKey, guarded by
`response.contains("candidates")`: the loop, then
`highlighted_index = response.value("highlighted_index", 0);` and
`page_size = response.value("page_size", 5);`. -/
def stepCandidates (j : Json) (s : RimeUIState) : RimeUIState × Option ExtractErr :=
  if jcontains j "candidates" then
    match subscrMut j "candidates" with
    | .error e => (s, some e)
    | .ok cj =>
      let (cs, err) := readCandidates (jsonIterate cj)
      let s := { s with candidates := cs }
      match err with
      | some e => (s, some e)
      | none =>
        match jvalue j "highlighted_index" 0 Json.asInt with
        | .error e => (s, some e)
        | .ok hi =>
          let s := { s with highlighted_index := hi }
          match jvalue j "page_size" 5 Json.asInt with
          | .error e => (s, some e)
          | .ok ps => ({ s with page_size := ps }, none)
  else (s, none)

/-- The try-block of `IPCClient::processKey` applied to an already
parsed response, with the partial state at the point of a raised
extraction error. -/
def processKeyBody (j : Json) : RimeUIState × Option ExtractErr :=
  andThen (stepHandled j {}) (fun s =>
  andThen (stepCommit j s) (fun s =>
  andThen (stepPreedit j s) (fun s =>
  stepCandidates j s)))

/-- `IPCClient::processKey` over the round-trip oracle: a transport or
parse exception is caught with the default-initialised state (the catch
handler re-assigns `handled = false`); an extraction exception is caught
with the partial state; the undefined-behaviour case does not return. -/
def processKey (oc : IpcOutcome) : Option RimeUIState :=
  match oc with
  | .transportError => some { ({} : RimeUIState) with handled := false }
  | .parseError => some { ({} : RimeUIState) with handled := false }
  | .response j =>
    match processKeyBody j with
    | (s, none) => some s
    | (s, some .thrown) => some { s with handled := false }
    | (_, some .ub) => none

/-- `IPCClient::ping`: true iff the round trip succeeds, the payload
parses, and `response.value("pong", false)` yields true; every exception
is caught and collapses to false. -/
def ping (oc : IpcOutcome) : Bool :=
  match oc with
  | .response j =>
    match jvalue j "pong" false Json.asBool with
    | .ok b => b
    | .error _ => false
  | _ => false

/-! ## Recorder process manager and the asynchronous stop flow
(`stopRecorderProcess` and the worker thread spawned by
`VoCoTypeAddon::stopRecording`, vocotype.cpp). -/

/-- One observable action of the stop worker, in program order:
the file-descriptor events of `stopRecorderProcess` followed by the
follow-up work of the worker lambda and the delivery callback. -/
inductive FlowAction where
  | closeWrite : FlowAction
  | readLine : FlowAction
  | closeRead : FlowAction
  | waitProc : FlowAction
  | removeFile (path : String) : FlowAction
  | transcribeCall (path : String) : FlowAction
  | showErrorUI (msg : String) : FlowAction
  | clearTheUI : FlowAction
  | emitText (text : String) : FlowAction
deriving DecidableEq

/-- The recorder handle: process id, write-side file descriptor of the
stdin pipe, and the (fdopen-ed) read side of the stdout pipe modelled as
the list of lines the recorder will emit (`none` models a null FILE
pointer). Lines are assumed shorter than the 1024-byte fgets buffer. -/
structure RecorderHandle where
  pid : Int
  stdin_fd : Int
  stdout_file : Option (List String)
deriving DecidableEq

/-- Trailing newline / carriage-return trimming loop of
`stopRecorderProcess` (pop_back while the last char is a newline or a
carriage return). -/
def rtrimNL (s : String) : String :=
  String.mk ((s.data.reverse.dropWhile (fun c => c == '\n' || c == '\r')).reverse)

/-- `stopRecorderProcess(pid, stdin_fd, stdout_file)` of vocotype.cpp:
close the write side when the descriptor is valid, fgets one line from
the output side when the FILE pointer is non-null (empty path on EOF,
trimmed first line otherwise) and fclose it, then waitpid (retrying on
EINTR) when the pid is positive. Returns the event list in program
order together with the audio path. -/
def stopRecorderProcess (pid : Int) (stdin_fd : Int)
    (stdout_file : Option (List String)) : List FlowAction × String :=
  let closeEvs := if 0 ≤ stdin_fd then [FlowAction.closeWrite] else []
  let readPart :=
    match stdout_file with
    | none => ([], "")
    | some [] => ([FlowAction.readLine, FlowAction.closeRead], "")
    | some (l :: _) => ([FlowAction.readLine, FlowAction.closeRead], rtrimNL l)
  let waitEvs := if 0 < pid then [FlowAction.waitProc] else []
  (closeEvs ++ readPart.1 ++ waitEvs, readPart.2)

/-- The file-descriptor events of one stop call. -/
def stopEvents (h : RecorderHandle) : List FlowAction :=
  (stopRecorderProcess h.pid h.stdin_fd h.stdout_file).1

/-- The audio path one stop call returns. -/
def stopAudioPath (h : RecorderHandle) : String :=
  (stopRecorderProcess h.pid h.stdin_fd h.stdout_file).2

/-- The delivery callback scheduled at the end of the worker thread
(`Transcribing` to `Idle`, vocotype.cpp lines 348-362): commit on
success with non-empty text (`commitText` clears the UI and then emits
the text), error indicator on failure (generic fallback when the error
string is empty), silent clear on success with empty text. -/
def deliverResult (r : TranscribeResult) : List FlowAction :=
  if r.success = true ∧ r.text ≠ "" then
    [FlowAction.clearTheUI, FlowAction.emitText r.text]
  else if r.success = false then
    [FlowAction.showErrorUI (if r.error = "" then "转录失败" else r.error)]
  else
    [FlowAction.clearTheUI]

/-- The worker thread of `VoCoTypeAddon::stopRecording` (the detached
lambda), with the transcription round trip abstracted as the oracle
`tr` and context liveness at delivery time as `ctxLive`: stop the
recorder; on an empty path show the recording-failed indicator when
transcribing (and the context is still alive), else return silently;
on a non-empty path without transcription delete the artifact; else
transcribe, delete the artifact, and deliver the result. -/
def stopFlow (transcribe : Bool) (h : RecorderHandle) (ctxLive : Bool)
    (tr : String → TranscribeResult) : List FlowAction :=
  let audio_path := stopAudioPath h
  stopEvents h ++
    (if audio_path = "" then
      (if transcribe = true then
        (if ctxLive = true then [FlowAction.showErrorUI "录音失败"] else [])
       else [])
     else if transcribe = false then
      [FlowAction.removeFile audio_path]
     else
      [FlowAction.transcribeCall audio_path, FlowAction.removeFile audio_path] ++
        (if ctxLive = true then deliverResult (tr audio_path) else []))

/-! ## Session controller key-event dispatch
(`VoCoTypeAddon::keyEvent`, `startRecording`, `stopRecording` guards,
`isIBusSwitchHotkey`, vocotype.cpp). -/

/-- FcitxKey_F9, the push-to-talk key (`PTT_KEYVAL`). -/
def PTT_KEYVAL : Nat := 65478

/-- FcitxKey_space. -/
def FcitxKey_space : Nat := 32

/-- FcitxKey_Shift_L. -/
def FcitxKey_Shift_L : Nat := 65505

/-- FcitxKey_Shift_R. -/
def FcitxKey_Shift_R : Nat := 65506

/-- The modifier flags of `fcitx::KeyStates` the addon inspects. -/
structure KeyStates where
  shift : Bool := false
  capsLock : Bool := false
  ctrl : Bool := false
  alt : Bool := false
  superMod : Bool := false
deriving DecidableEq

/-- One key event: keysym value, press/release flag, modifier states. -/
structure KeyInput where
  keyval : Nat
  isRelease : Bool
  states : KeyStates
deriving DecidableEq

/-- `VoCoTypeAddon::isIBusSwitchHotkey`: Ctrl+Space or Super+Space, or
Ctrl/Alt with a bare Shift keysym. -/
def isIBusSwitchHotkey (key : KeyInput) : Bool :=
  ((key.keyval == FcitxKey_space) && (key.states.ctrl || key.states.superMod)) ||
  (((key.keyval == FcitxKey_Shift_L) || (key.keyval == FcitxKey_Shift_R)) &&
    (key.states.ctrl || key.states.alt))

/-- The Rime modifier mask built in `keyEvent`: Shift=bit0,
CapsLock(Lock)=bit1, Control=bit2, Alt=bit3. -/
def rimeMask (ks : KeyStates) : Nat :=
  let m := 0
  let m := if ks.shift then m ||| (1 <<< 0) else m
  let m := if ks.capsLock then m ||| (1 <<< 1) else m
  let m := if ks.ctrl then m ||| (1 <<< 2) else m
  let m := if ks.alt then m ||| (1 <<< 3) else m
  m

/-- The recording-session fields of `VoCoTypeAddon`. -/
structure SessionState where
  is_recording : Bool := false
  recorder_pid : Int := -1
  recorder_stdin_fd : Int := -1
  recorder_stdout : Option (List String) := none
deriving DecidableEq

/-- One observable action of `keyEvent` and its callees. -/
inductive KeyAction where
  | startRec (h : RecorderHandle) : KeyAction
  | startFailed : KeyAction
  | stopRec (transcribe : Bool) : KeyAction
  | commitUI (text : String) : KeyAction
  | applyUI (s : RimeUIState) : KeyAction
  | sendKey (keyval : Nat) (mask : Nat) : KeyAction
deriving DecidableEq

/-- `VoCoTypeAddon::startRecording`: the guard returns immediately while
already recording; pipe/fork/execl/fdopen are abstracted by the `spawn`
oracle (`none` = invalid configuration or any launch failure, which
shows an error and leaves the state unchanged; `some h` = a launched
recorder whose handle fields are stored and `is_recording_` set). -/
def startRecordingStep (st : SessionState) (spawn : Option RecorderHandle) :
    List KeyAction × SessionState :=
  if st.is_recording = true then ([], st)
  else
    match spawn with
    | none => ([KeyAction.startFailed], st)
    | some h =>
      ([KeyAction.startRec h],
       { is_recording := true, recorder_pid := h.pid,
         recorder_stdin_fd := h.stdin_fd, recorder_stdout := h.stdout_file })

/-- The synchronous part of `VoCoTypeAddon::stopRecording`: the guard
returns immediately while not recording; otherwise the recording flag is
cleared, the handle fields are consumed (reset to -1, -1, null) and the
detached worker (`stopFlow`) is spawned. -/
def stopRecordingStep (st : SessionState) (transcribe : Bool) :
    List KeyAction × SessionState :=
  if st.is_recording = false then ([], st)
  else
    ([KeyAction.stopRec transcribe],
     { is_recording := false, recorder_pid := -1,
       recorder_stdin_fd := -1, recorder_stdout := none })

/-- `VoCoTypeAddon::keyEvent` as a step function: actions performed, the
consumed flag (`filterAndAccept`) and the resulting session state. The
IPC round trip backing `IPCClient::processKey` is the oracle `oc`; the
recorder launch is the oracle `spawn`. `none` is the (unreachable for
well-formed backends) abort inside processKey. -/
def keyEventStep (key : KeyInput) (st : SessionState)
    (spawn : Option RecorderHandle) (oc : IpcOutcome) :
    Option (List KeyAction × Bool × SessionState) :=
  if key.keyval = PTT_KEYVAL then
    if key.isRelease = true then
      if st.is_recording = true then
        let r := stopRecordingStep st true
        some (r.1, true, r.2)
      else some ([], true, st)
    else
      if st.is_recording = false then
        let r := startRecordingStep st spawn
        some (r.1, true, r.2)
      else some ([], true, st)
  else
    if key.isRelease = false then
      if isIBusSwitchHotkey key = true then some ([], false, st)
      else
        match processKey oc with
        | none => none
        | some s =>
          some ([KeyAction.sendKey key.keyval (rimeMask key.states)] ++
                (if s.commit_text = "" then [] else [KeyAction.commitUI s.commit_text]) ++
                [KeyAction.applyUI s],
                s.handled, st)
    else some ([], false, st)

/-! ## Candidate UI update (`VoCoTypeAddon::updateUI`). -/

/-- The cursor index `updateUI` actually sets on the candidate list:
`highlighted_index`, replaced by 0 when negative or not below the
candidate count. -/
def setCursorIndex (s : RimeUIState) : Int :=
  if s.highlighted_index < 0 ∨ (s.candidates.length : Int) ≤ s.highlighted_index then 0
  else s.highlighted_index

/-- Candidate text rendering of `updateUI`: the text, followed by a
space and the comment when the comment is non-empty. -/
def renderCandidate (text comment : String) : String :=
  if comment = "" then text else text ++ " " ++ comment

/-- The input-panel contents `updateUI` produces: the client preedit
(`none` when the preedit text is empty and an empty `fcitx::Text` is
set), and the candidate list (`none` when it is reset to null) with its
rendered entries, page size and global cursor index. -/
structure UIState where
  preedit : Option String
  candList : Option (List String × Int × Int)
deriving DecidableEq

/-- `VoCoTypeAddon::updateUI`. -/
def updateUI (s : RimeUIState) : UIState :=
  { preedit := if s.preedit_text = "" then none else some s.preedit_text,
    candList :=
      if s.candidates = [] then none
      else some (s.candidates.map (fun p => renderCandidate p.1 p.2),
                 s.page_size, setCursorIndex s) }

/-- The cursor index stored in a produced UI state, when a candidate
list was set. -/
def uiCursorIndex (u : UIState) : Option Int :=
  u.candList.map (fun t => t.2.2)

/-! ## Well-formed key_event response shapes (for the decode claims). -/

/-- Json shape of a preedit object carrying both subfields. -/
def preeditJson (p : String × Int) : Json :=
  Json.obj [("text", Json.str p.1), ("cursor_pos", Json.num p.2)]

/-- Json shape of a candidate entry carrying both subfields. -/
def candJson (c : String × String) : Json :=
  Json.obj [("text", Json.str c.1), ("comment", Json.str c.2)]

/-- Json shape of a candidates array of well-formed entries. -/
def candsJson (cs : List (String × String)) : Json :=
  Json.arr (cs.map candJson)

/-- Zero or one field of a response object. -/
def optField (k : String) (v : Option Json) : List (String × Json) :=
  match v with
  | none => []
  | some j => [(k, j)]

/-- A key_event response map in which every top-level field is
independently present or absent, every present field is well-typed, and
nested objects carry all of their subfields. -/
structure KeyResp where
  handled : Option Bool
  commit : Option String
  preedit : Option (String × Int)
  candidates : Option (List (String × String))
  highlighted_index : Option Int
  page_size : Option Int

/-- The field list of such a response. -/
def KeyResp.fields (r : KeyResp) : List (String × Json) :=
  optField "handled" (r.handled.map Json.bool) ++
  (optField "commit" (r.commit.map Json.str) ++
  (optField "preedit" (r.preedit.map preeditJson) ++
  (optField "candidates" (r.candidates.map candsJson) ++
  (optField "highlighted_index" (r.highlighted_index.map Json.num) ++
  (optField "page_size" (r.page_size.map Json.num) ++ [])))))

/-- The response as a Json object. -/
def KeyResp.asJson (r : KeyResp) : Json := Json.obj r.fields

/-- Modelled from the spec: the schema decode with per-field defaults
(handled=false, page_size=5, highlighted_index=0, empty strings, empty
candidate list); the pagination fields are read only when a candidates
field is present. -/
def KeyResp.expected (r : KeyResp) : RimeUIState :=
  { handled := r.handled.getD false
    commit_text := r.commit.getD ""
    preedit_text := (r.preedit.map Prod.fst).getD ""
    cursor_pos := (r.preedit.map Prod.snd).getD 0
    candidates := r.candidates.getD []
    highlighted_index := if r.candidates.isSome then r.highlighted_index.getD 0 else 0
    page_size := if r.candidates.isSome then r.page_size.getD 5 else 5 }

/-! ## Helper lemmas. -/

theorem lookupField_skip (k k2 : String) (v : Option Json) (ys : List (String × Json))
    (hne : ¬ k = k2) : lookupField (optField k v ++ ys) k2 = lookupField ys k2 := by
  cases v <;> simp [optField, lookupField, hne]

theorem lookupField_hit (k : String) (v : Option Json) (ys : List (String × Json))
    (hys : lookupField ys k = none) : lookupField (optField k v ++ ys) k = v := by
  cases v <;> simp [optField, lookupField, hys]

theorem fields_lookup_handled (r : KeyResp) :
    lookupField r.fields "handled" = r.handled.map Json.bool := by
  unfold KeyResp.fields
  rw [lookupField_hit]
  rw [lookupField_skip _ _ _ _ (by decide), lookupField_skip _ _ _ _ (by decide),
      lookupField_skip _ _ _ _ (by decide), lookupField_skip _ _ _ _ (by decide),
      lookupField_skip _ _ _ _ (by decide)]
  rfl

theorem fields_lookup_commit (r : KeyResp) :
    lookupField r.fields "commit" = r.commit.map Json.str := by
  unfold KeyResp.fields
  rw [lookupField_skip _ _ _ _ (by decide), lookupField_hit]
  rw [lookupField_skip _ _ _ _ (by decide), lookupField_skip _ _ _ _ (by decide),
      lookupField_skip _ _ _ _ (by decide), lookupField_skip _ _ _ _ (by decide)]
  rfl

theorem fields_lookup_preedit (r : KeyResp) :
    lookupField r.fields "preedit" = r.preedit.map preeditJson := by
  unfold KeyResp.fields
  rw [lookupField_skip _ _ _ _ (by decide), lookupField_skip _ _ _ _ (by decide),
      lookupField_hit]
  rw [lookupField_skip _ _ _ _ (by decide), lookupField_skip _ _ _ _ (by decide),
      lookupField_skip _ _ _ _ (by decide)]
  rfl

theorem fields_lookup_candidates (r : KeyResp) :
    lookupField r.fields "candidates" = r.candidates.map candsJson := by
  unfold KeyResp.fields
  rw [lookupField_skip _ _ _ _ (by decide), lookupField_skip _ _ _ _ (by decide),
      lookupField_skip _ _ _ _ (by decide), lookupField_hit]
  rw [lookupField_skip _ _ _ _ (by decide), lookupField_skip _ _ _ _ (by decide)]
  rfl

theorem fields_lookup_highlighted (r : KeyResp) :
    lookupField r.fields "highlighted_index" = r.highlighted_index.map Json.num := by
  unfold KeyResp.fields
  rw [lookupField_skip _ _ _ _ (by decide), lookupField_skip _ _ _ _ (by decide),
      lookupField_skip _ _ _ _ (by decide), lookupField_skip _ _ _ _ (by decide),
      lookupField_hit]
  rw [lookupField_skip _ _ _ _ (by decide)]
  rfl

theorem fields_lookup_page (r : KeyResp) :
    lookupField r.fields "page_size" = r.page_size.map Json.num := by
  unfold KeyResp.fields
  rw [lookupField_skip _ _ _ _ (by decide), lookupField_skip _ _ _ _ (by decide),
      lookupField_skip _ _ _ _ (by decide), lookupField_skip _ _ _ _ (by decide),
      lookupField_skip _ _ _ _ (by decide), lookupField_hit]
  rfl

theorem stepHandled_keyResp (r : KeyResp) (s : RimeUIState) :
    stepHandled r.asJson s = ({ s with handled := r.handled.getD false }, none) := by
  cases hh : r.handled <;>
    simp [stepHandled, KeyResp.asJson, jvalue, Json.getObj?, fields_lookup_handled, hh,
      Json.asBool]

theorem stepCommit_keyResp (r : KeyResp) (s : RimeUIState) :
    stepCommit r.asJson s = ({ s with commit_text := r.commit.getD s.commit_text }, none) := by
  cases hc : r.commit <;>
    simp [stepCommit, KeyResp.asJson, jcontains, subscrMut, Json.getObj?,
      fields_lookup_commit, hc, Json.asString]

theorem stepPreedit_keyResp (r : KeyResp) (s : RimeUIState) :
    stepPreedit r.asJson s =
      ({ s with preedit_text := (r.preedit.map Prod.fst).getD s.preedit_text,
                cursor_pos := (r.preedit.map Prod.snd).getD s.cursor_pos }, none) := by
  cases hp : r.preedit with
  | none =>
    simp [stepPreedit, KeyResp.asJson, jcontains, Json.getObj?, fields_lookup_preedit, hp]
  | some p =>
    simp [stepPreedit, KeyResp.asJson, jcontains, subscrMut, Json.getObj?,
      fields_lookup_preedit, hp, preeditJson, lookupField, Json.asString, Json.asInt]

theorem readCandidates_wellFormed (cs : List (String × String)) :
    readCandidates (cs.map candJson) = (cs, none) := by
  induction cs with
  | nil => rfl
  | cons c rest ih =>
    simp [readCandidates, candJson, subscrConst, lookupField, Json.asString, ih]

theorem stepCandidates_keyResp (r : KeyResp) (s : RimeUIState) :
    stepCandidates r.asJson s =
      (match r.candidates with
       | none => (s, none)
       | some cs =>
         ({ s with candidates := cs,
                   highlighted_index := r.highlighted_index.getD 0,
                   page_size := r.page_size.getD 5 }, none)) := by
  cases hc : r.candidates with
  | none =>
    simp [stepCandidates, KeyResp.asJson, jcontains, Json.getObj?, fields_lookup_candidates, hc]
  | some cs =>
    cases hh : r.highlighted_index <;> cases hps : r.page_size <;>
      simp [stepCandidates, KeyResp.asJson, jcontains, subscrMut, Json.getObj?,
        fields_lookup_candidates, fields_lookup_highlighted, fields_lookup_page,
        hc, hh, hps, candsJson, jsonIterate, readCandidates_wellFormed, jvalue, Json.asInt]

theorem andThen_ok (s : RimeUIState) (f : RimeUIState → RimeUIState × Option ExtractErr) :
    andThen (s, none) f = f s := rfl

/-! ## Claim theorems. -/

/-- C1 (amended): on a handle obtained from start() (live pid, valid
write descriptor, open output stream), the stop routine closes the write
side first, then reads exactly one line from the output side (trimming
the trailing newline/carriage-return to form the artifact path), then
closes the read side, then waits for the process, in that fixed order —
regardless of wantAudio, which only controls what the stop flow does
with the path afterwards. -/
theorem C1_stop_order (h : RecorderHandle) (wantAudio live : Bool)
    (tr : String → TranscribeResult) (lines : List String)
    (hpid : 0 < h.pid) (hfd : 0 ≤ h.stdin_fd) (hout : h.stdout_file = some lines) :
    stopEvents h = [FlowAction.closeWrite, FlowAction.readLine,
                    FlowAction.closeRead, FlowAction.waitProc] ∧
    stopAudioPath h = rtrimNL (lines.headD "") ∧
    ∃ rest, stopFlow wantAudio h live tr =
      [FlowAction.closeWrite, FlowAction.readLine,
       FlowAction.closeRead, FlowAction.waitProc] ++ rest := by
  have he : stopEvents h = [FlowAction.closeWrite, FlowAction.readLine,
      FlowAction.closeRead, FlowAction.waitProc] := by
    cases lines with
    | nil => simp [stopEvents, stopRecorderProcess, hout, hpid, hfd]
    | cons l rest => simp [stopEvents, stopRecorderProcess, hout, hpid, hfd]
  refine ⟨he, ?_, ?_⟩
  · cases lines with
    | nil => simp [stopAudioPath, stopRecorderProcess, hout, rtrimNL]
    | cons l rest => simp [stopAudioPath, stopRecorderProcess, hout]
  · unfold stopFlow
    simp only [he]
    exact ⟨_, rfl⟩

/-- C1 witness: a concrete started handle. -/
theorem C1_witness :
    stopEvents ⟨7, 3, some ["a.wav\n"]⟩ = [FlowAction.closeWrite, FlowAction.readLine,
      FlowAction.closeRead, FlowAction.waitProc] ∧
    stopAudioPath ⟨7, 3, some ["a.wav\n"]⟩ = rtrimNL (["a.wav\n"].headD "") ∧
    ∃ rest, stopFlow false ⟨7, 3, some ["a.wav\n"]⟩ true (fun _ => {}) =
      [FlowAction.closeWrite, FlowAction.readLine,
       FlowAction.closeRead, FlowAction.waitProc] ++ rest :=
  C1_stop_order ⟨7, 3, some ["a.wav\n"]⟩ false true (fun _ => {}) ["a.wav\n"]
    (by decide) (by decide) rfl

/-- C1 counterexample: with wantAudio = false the routine still reads a
line from the output side (the claim asserts no line is read then). -/
theorem C1_cex :
    FlowAction.readLine ∈ stopFlow false ⟨7, 3, some ["a.wav\n"]⟩ true (fun _ => {}) := by
  decide

/-- C2 (amended): a transport failure or an unparseable payload makes
processKey return handled = false with an otherwise empty composition
state, raising no error to the caller. -/
theorem C2_transport_parse_default (oc : IpcOutcome)
    (h : oc = IpcOutcome.transportError ∨ oc = IpcOutcome.parseError) :
    processKey oc = some ({} : RimeUIState) ∧
    ({} : RimeUIState).handled = false ∧ ({} : RimeUIState).commit_text = "" ∧
    ({} : RimeUIState).preedit_text = "" ∧ ({} : RimeUIState).cursor_pos = 0 ∧
    ({} : RimeUIState).candidates = [] := by
  rcases h with h | h <;> subst h <;> exact ⟨rfl, rfl, rfl, rfl, rfl, rfl⟩

/-- C2 witness: the transport-failure case. -/
theorem C2_witness :
    processKey IpcOutcome.transportError = some ({} : RimeUIState) ∧
    ({} : RimeUIState).handled = false ∧ ({} : RimeUIState).commit_text = "" ∧
    ({} : RimeUIState).preedit_text = "" ∧ ({} : RimeUIState).cursor_pos = 0 ∧
    ({} : RimeUIState).candidates = [] :=
  C2_transport_parse_default IpcOutcome.transportError (Or.inl rfl)

/-- C2 counterexample: a response whose commit field extracts but whose
preedit object lacks its text subfield fails extraction mid-decode, yet
the returned state keeps the non-empty commit text — not an otherwise
empty composition state. -/
theorem C2_cex :
    processKey (IpcOutcome.response (Json.obj
        [("commit", Json.str "x"), ("preedit", Json.obj [])])) =
      some { handled := false, commit_text := "x" } ∧
    (processKeyBody (Json.obj [("commit", Json.str "x"), ("preedit", Json.obj [])])).2 =
      some ExtractErr.thrown ∧
    ({ handled := false, commit_text := "x" } : RimeUIState).commit_text ≠ "" :=
  ⟨rfl, rfl, by decide⟩

/-- C3 (amended): when the recorder produced no output line, the stop
routine returns an empty path and the flow makes no transcribe call, but
the controller does surface an error indicator to the UI (the recording
failed message) when the context is live. -/
theorem C3_no_output (h : RecorderHandle) (live : Bool)
    (tr : String → TranscribeResult)
    (hpid : 0 < h.pid) (hfd : 0 ≤ h.stdin_fd) (hout : h.stdout_file = some []) :
    stopAudioPath h = "" ∧
    stopFlow true h live tr =
      [FlowAction.closeWrite, FlowAction.readLine,
       FlowAction.closeRead, FlowAction.waitProc] ++
      (if live = true then [FlowAction.showErrorUI "录音失败"] else []) := by
  constructor
  · simp [stopAudioPath, stopRecorderProcess, hout]
  · cases live <;>
      simp [stopFlow, stopEvents, stopAudioPath, stopRecorderProcess, hout, hpid, hfd]

/-- C3 witness: a concrete no-output stop with a live context. -/
theorem C3_witness :
    stopAudioPath ⟨7, 3, some []⟩ = "" ∧
    stopFlow true ⟨7, 3, some []⟩ true (fun _ => {}) =
      [FlowAction.closeWrite, FlowAction.readLine,
       FlowAction.closeRead, FlowAction.waitProc] ++
      (if true = true then [FlowAction.showErrorUI "录音失败"] else []) :=
  C3_no_output ⟨7, 3, some []⟩ true (fun _ => {}) (by decide) (by decide) rfl

/-- C3 counterexample: an error indicator is surfaced to the UI on the
no-output path (the claim asserts none is). -/
theorem C3_cex :
    FlowAction.showErrorUI "录音失败" ∈ stopFlow true ⟨7, 3, some []⟩ true (fun _ => {}) := by
  decide

/-- C4 (amended): for every key_event response map whose present
top-level fields are well-typed and whose nested objects carry all their
subfields, every absent top-level field yields its schema default and
the decode never fails. -/
theorem C4_decode_defaults (r : KeyResp) :
    processKey (IpcOutcome.response r.asJson) = some r.expected := by
  have hb : processKeyBody r.asJson = (r.expected, none) := by
    simp only [processKeyBody, stepHandled_keyResp, andThen_ok, stepCommit_keyResp,
      stepPreedit_keyResp, stepCandidates_keyResp]
    cases hc : r.candidates <;> simp [KeyResp.expected, hc]
  simp [processKey, hb]

/-- C4 counterexample: a parsed response whose preedit object omits the
text subfield: the decode does not default the missing subfield —
the extraction error is caught, handled is forced to false (though the
response says true) and cursor_pos stays 0 (though the response says
3). -/
theorem C4_cex :
    processKey (IpcOutcome.response (Json.obj [("handled", Json.bool true),
      ("preedit", Json.obj [("cursor_pos", Json.num 3)])])) = some ({} : RimeUIState) ∧
    ({} : RimeUIState).handled = false ∧ ({} : RimeUIState).cursor_pos = 0 :=
  ⟨rfl, rfl, rfl⟩

/-- C5: the delivery callback at the Transcribing-to-Idle transition
with a live context: on success with non-empty text the UI is cleared
first and the text emitted second; on failure the error text (or the
generic fallback when it is empty) is shown; on success with empty text
the UI is cleared silently. -/
theorem C5_delivery (h : RecorderHandle) (r : TranscribeResult)
    (tr : String → TranscribeResult)
    (hpath : ¬ stopAudioPath h = "") (htr : tr (stopAudioPath h) = r) :
    stopFlow true h true tr =
      stopEvents h ++
        [FlowAction.transcribeCall (stopAudioPath h),
         FlowAction.removeFile (stopAudioPath h)] ++ deliverResult r ∧
    (r.success = true → ¬ r.text = "" →
      deliverResult r = [FlowAction.clearTheUI, FlowAction.emitText r.text]) ∧
    (r.success = false →
      deliverResult r =
        [FlowAction.showErrorUI (if r.error = "" then "转录失败" else r.error)]) ∧
    (r.success = true → r.text = "" → deliverResult r = [FlowAction.clearTheUI]) := by
  refine ⟨?_, ?_, ?_, ?_⟩
  · simp [stopFlow, hpath, htr]
  · intro h1 h2; simp [deliverResult, h1, h2]
  · intro h1; simp [deliverResult, h1]
  · intro h1 h2; simp [deliverResult, h1, h2]

/-- C5 witness: a concrete successful transcription delivered to a live
context: clear first, emit second. -/
theorem C5_witness :
    stopFlow true ⟨7, 3, some ["a.wav\n"]⟩ true (fun _ => ⟨true, "你好", ""⟩) =
      [FlowAction.closeWrite, FlowAction.readLine, FlowAction.closeRead,
       FlowAction.waitProc, FlowAction.transcribeCall "a.wav",
       FlowAction.removeFile "a.wav", FlowAction.clearTheUI,
       FlowAction.emitText "你好"] := by
  have h := C5_delivery ⟨7, 3, some ["a.wav\n"]⟩ ⟨true, "你好", ""⟩
      (fun _ => ⟨true, "你好", ""⟩) (by decide) rfl
  exact h.1

/-- C6: a forwarded non-session key press (not the push-to-talk key, not
a switch hotkey) sends exactly one key_event request, commits the commit
text (when non-empty) before applying the composition state to the UI,
leaves the session state unchanged, and is consumed exactly when the
returned handled flag is true. -/
theorem C6_forwarded_key (key : KeyInput) (st : SessionState)
    (spawn : Option RecorderHandle) (oc : IpcOutcome) (s : RimeUIState)
    (hk : ¬ key.keyval = PTT_KEYVAL) (hr : key.isRelease = false)
    (hh : isIBusSwitchHotkey key = false) (hp : processKey oc = some s) :
    keyEventStep key st spawn oc =
      some ([KeyAction.sendKey key.keyval (rimeMask key.states)] ++
            (if s.commit_text = "" then [] else [KeyAction.commitUI s.commit_text]) ++
            [KeyAction.applyUI s],
            s.handled, st) := by
  simp [keyEventStep, hk, hr, hh, hp]

/-- C6 witness: the response with handled true, commit 你好 and an empty
preedit: the controller commits 你好 before applying the (cleared)
composition state and reports the key as consumed. -/
theorem C6_witness :
    keyEventStep ⟨97, false, ⟨false, false, false, false, false⟩⟩
      ⟨false, -1, -1, none⟩ none
      (IpcOutcome.response (Json.obj [("handled", Json.bool true),
        ("commit", Json.str "你好"),
        ("preedit", Json.obj [("text", Json.str ""), ("cursor_pos", Json.num 0)])])) =
      some ([KeyAction.sendKey 97 0, KeyAction.commitUI "你好",
             KeyAction.applyUI { handled := true, commit_text := "你好" }],
            true, ⟨false, -1, -1, none⟩) := by
  have h := C6_forwarded_key ⟨97, false, ⟨false, false, false, false, false⟩⟩
      ⟨false, -1, -1, none⟩ none
      (IpcOutcome.response (Json.obj [("handled", Json.bool true),
        ("commit", Json.str "你好"),
        ("preedit", Json.obj [("text", Json.str ""), ("cursor_pos", Json.num 0)])]))
      { handled := true, commit_text := "你好" }
      (by decide) rfl (by decide) rfl
  exact h

/-- C7: a push-to-talk press while already recording, or a push-to-talk
release while not recording, performs no action (in particular spawns no
recorder) and leaves every session-state field unchanged. -/
theorem C7_ptt_noop (key : KeyInput) (st : SessionState)
    (spawn : Option RecorderHandle) (oc : IpcOutcome)
    (hk : key.keyval = PTT_KEYVAL)
    (h : (key.isRelease = false ∧ st.is_recording = true) ∨
         (key.isRelease = true ∧ st.is_recording = false)) :
    keyEventStep key st spawn oc = some ([], true, st) := by
  rcases h with ⟨h1, h2⟩ | ⟨h1, h2⟩ <;> simp [keyEventStep, hk, h1, h2]

/-- C7 witness: a press while recording. -/
theorem C7_witness :
    keyEventStep ⟨65478, false, ⟨false, false, false, false, false⟩⟩
      ⟨true, 7, 3, some []⟩ none IpcOutcome.transportError =
      some ([], true, ⟨true, 7, 3, some []⟩) :=
  C7_ptt_noop _ _ _ _ rfl (Or.inl ⟨rfl, rfl⟩)

/-- C8: a key event matching one of the recognized input-method switch
combinations (Ctrl+Space, Super+Space, Ctrl+Shift, Alt+Shift) performs
no action at all — in particular no key_event request is sent to the
backend — and is not consumed. -/
theorem C8_switch_hotkey_suppressed (key : KeyInput) (st : SessionState)
    (spawn : Option RecorderHandle) (oc : IpcOutcome)
    (h : (key.keyval = FcitxKey_space ∧
            (key.states.ctrl = true ∨ key.states.superMod = true)) ∨
         ((key.keyval = FcitxKey_Shift_L ∨ key.keyval = FcitxKey_Shift_R) ∧
            (key.states.ctrl = true ∨ key.states.alt = true))) :
    keyEventStep key st spawn oc = some ([], false, st) := by
  have hne : ¬ key.keyval = PTT_KEYVAL := by
    rcases h with ⟨h1, _⟩ | ⟨h1 | h1, _⟩ <;> rw [h1] <;> decide
  have hhot : isIBusSwitchHotkey key = true := by
    rcases h with ⟨h1, h2 | h2⟩ | ⟨h1 | h1, h2 | h2⟩ <;>
      simp [isIBusSwitchHotkey, h1, h2, FcitxKey_space, FcitxKey_Shift_L, FcitxKey_Shift_R]
  cases hr : key.isRelease with
  | true => simp [keyEventStep, hne, hr]
  | false => simp [keyEventStep, hne, hr, hhot]

/-- C8 witness: Ctrl+Space pressed. -/
theorem C8_witness :
    keyEventStep ⟨32, false, ⟨false, false, true, false, false⟩⟩
      ⟨false, -1, -1, none⟩ none IpcOutcome.transportError =
      some ([], false, ⟨false, -1, -1, none⟩) :=
  C8_switch_hotkey_suppressed _ _ _ _ (Or.inl ⟨rfl, Or.inl rfl⟩)

/-- C9: ping returns true exactly when the round trip succeeded, the
payload parsed to an object, and its pong field is the boolean true;
every failure collapses to false without raising. -/
theorem C9_ping_true_iff (oc : IpcOutcome) :
    ping oc = true ↔
      ∃ fs, oc = IpcOutcome.response (Json.obj fs) ∧
        lookupField fs "pong" = some (Json.bool true) := by
  cases oc with
  | transportError => simp [ping]
  | parseError => simp [ping]
  | response j =>
    cases j with
    | obj fs =>
      cases hl : lookupField fs "pong" with
      | none => simp [ping, jvalue, Json.getObj?, hl]
      | some v =>
        cases v <;> simp [ping, jvalue, Json.getObj?, hl, Json.asBool]
    | null => simp [ping, jvalue, Json.getObj?]
    | bool b => simp [ping, jvalue, Json.getObj?]
    | num n => simp [ping, jvalue, Json.getObj?]
    | str s => simp [ping, jvalue, Json.getObj?]
    | arr elems => simp [ping, jvalue, Json.getObj?]

/-- C10: on a non-empty candidate list the cursor index actually set is
the clamped highlighted index, always within range. -/
theorem C10_cursor_in_range (s : RimeUIState) (h : s.candidates ≠ []) :
    uiCursorIndex (updateUI s) = some (setCursorIndex s) ∧
    0 ≤ setCursorIndex s ∧ setCursorIndex s < (s.candidates.length : Int) := by
  refine ⟨by simp [uiCursorIndex, updateUI, h], ?_⟩
  unfold setCursorIndex
  by_cases hc : s.highlighted_index < 0 ∨ (s.candidates.length : Int) ≤ s.highlighted_index
  · rw [if_pos hc]
    have hlen : s.candidates.length ≠ 0 := by
      simpa [List.length_eq_zero] using h
    exact ⟨le_refl 0, by exact_mod_cast Nat.pos_of_ne_zero hlen⟩
  · rw [if_neg hc]
    push_neg at hc
    exact ⟨hc.1, hc.2⟩

/-- C10 witness: an out-of-range highlighted index on a one-element
candidate list is clamped into range. -/
theorem C10_witness :
    uiCursorIndex (updateUI { candidates := [("a", "")], highlighted_index := 7 }) =
      some (setCursorIndex { candidates := [("a", "")], highlighted_index := 7 }) ∧
    0 ≤ setCursorIndex { candidates := [("a", "")], highlighted_index := 7 } ∧
    setCursorIndex { candidates := [("a", "")], highlighted_index := 7 } <
      (({ candidates := [("a", "")], highlighted_index := 7 } : RimeUIState).candidates.length : Int) :=
  C10_cursor_in_range { candidates := [("a", "")], highlighted_index := 7 } (by decide)
